import Mathlib

/-!
Shallow embedding of the federated search core of the recomendapp search
service: the controller in src/api/v1/search/search.controller.ts (the
best-results variant) and the second controller variant bundled at the end
of src/plugins/FastifySupabase.ts (the searchAll variant). JS numbers are
modelled as exact rationals or naturals, fallible external calls as Except
values, and the JS truthiness the source relies on (0, undefined and the
empty string are falsy; arrays, even empty ones, are truthy) is made
explicit in dedicated helper functions. Store fetches are tracked as
explicit lists of issued requests so that short-circuits and duplicate
fetches are observable.
-/

namespace RecomendSearch

/-- Full record returned by the authoritative store. The field `id` is the
primary key rendered as a string (the source coerces with String(item.id)
before building its lookup map), and `payload` stands for the remaining
columns of the row. -/
structure StoreRecord where
  id : String
  payload : ℕ
deriving DecidableEq

/-- Lookup in the JS expression new Map(data.map(item => [String(item.id), item])):
a Map built from a pair list keeps the last pair for a duplicated key, hence the
search over the reversed list. -/
def jsMapGet (data : List StoreRecord) (k : String) : Option StoreRecord :=
  data.reverse.find? (fun r => r.id == k)

/-- Reordering core of hydrateByIds (search.controller.ts lines 632-640) and of
the inlined per-collection hydrations (for example lines 323-324): an empty id
list short-circuits, otherwise every id is looked up in the store map in input
order and misses are dropped by .filter(Boolean). -/
def hydrateByIds (ids : List String) (data : List StoreRecord) : List StoreRecord :=
  if ids.isEmpty then []
  else ids.filterMap (fun i => jsMapGet data i)

/-- Document fields of an engine hit used by the controller: the id plus the
optional popularity proxies named in the result cast at
search.controller.ts line 123. -/
structure BestDoc where
  id : String
  popularity : Option ℚ
  followers_count : Option ℚ
  likes_count : Option ℚ
deriving DecidableEq

/-- Engine hit: a document plus the optional relevance score text_match. -/
structure BestHit where
  document : BestDoc
  text_match : Option ℚ
deriving DecidableEq

/-- Raw engine result for one collection: the optional hit list plus the
engine-reported total match count (the found field). -/
structure EngineResult where
  hits : Option (List BestHit)
  found : ℕ
deriving DecidableEq

/-- Expression searchResult.hits?.map(h => h.document.id) || []: an absent hit
list yields the empty id list; a present array, even empty, is truthy in JS,
so a present list is mapped unchanged. -/
def hitIds (hits : Option (List BestHit)) : List String :=
  (hits.getD []).map (fun h => h.document.id)

/-- Expression result.hits?.[0]: the rank-1 hit of a collection, if any. -/
def headHit (r : EngineResult) : Option BestHit :=
  (r.hits.getD []).head?

/-- JS expression x || y for an optional number x: both undefined and 0 are
falsy, so the fallback y is used for either. -/
def jsOrNum (x : Option ℚ) (y : ℚ) : ℚ :=
  match x with
  | some v => if v = 0 then y else v
  | none => y

/-- Expression candidate.hit.text_match || 0 (search.controller.ts line 148). -/
def textScore (h : BestHit) : ℚ := jsOrNum h.text_match 0

/-- Expression doc.popularity || doc.followers_count || doc.likes_count || 0
(search.controller.ts line 149): the falsy-fallback chain skips a field that
is present with value 0. -/
def popMetric (d : BestDoc) : ℚ :=
  jsOrNum d.popularity (jsOrNum d.followers_count (jsOrNum d.likes_count 0))

/-- Modelled from the spec: the candidate popularity described in section 4.3,
pop = first present field in the popularity-fallback list of the type, 0 if
none is present. Used only to compare the specified selector with the
implemented one, which also skips a present field whose value is 0. -/
def specPopMetric (d : BestDoc) : ℚ :=
  match d.popularity with
  | some v => v
  | none =>
    match d.followers_count with
    | some v => v
    | none => d.likes_count.getD 0

/-- Expression Math.max(...scores, 1): the maximum of a score list and 1
(search.controller.ts lines 142-143). -/
def maxOr1 (l : List ℚ) : ℚ := l.foldr max 1

/-- Metadata kept for the current best candidate (type tag, document id,
hybrid score), as in bestResultMeta of search.controller.ts line 133. -/
structure BestMeta where
  type : String
  id : String
  score : ℚ
deriving DecidableEq

/-- Hybrid score of a candidate hit (search.controller.ts lines 148-154):
0.9 * text/maxText + 0.1 * pop/maxPop, with exact rational arithmetic in
place of JS doubles. -/
def hybridScore (maxT maxP : ℚ) (h : BestHit) : ℚ :=
  (textScore h / maxT) * (9/10) + (popMetric h.document / maxP) * (1/10)

/-- Candidate metadata built from a hit of a given type tag. -/
def metaOf (maxT maxP : ℚ) (t : String) (h : BestHit) : BestMeta :=
  ⟨t, h.document.id, hybridScore maxT maxP h⟩

/-- Accumulator update of the selection loop (search.controller.ts lines
156-158): if (!bestResultMeta || hybridScore > bestResultMeta.score) replace
the accumulator, so earlier candidates win exact ties. -/
def keepMax (acc : Option BestMeta) (c : BestMeta) : Option BestMeta :=
  match acc with
  | none => some c
  | some m => if m.score < c.score then some c else acc

/-- One iteration of the for loop over potentialBest: candidates without a hit
are skipped by the guard if (candidate.hit?.document). -/
def stepBest (maxT maxP : ℚ) (acc : Option BestMeta) (c : String × Option BestHit) :
    Option BestMeta :=
  match c.2 with
  | none => acc
  | some h => keepMax acc (metaOf maxT maxP c.1 h)

/-- Candidate array of search.controller.ts lines 134-140, in declaration
order: movie, tv_series, person, user, playlist. -/
def potentialBest (m tv p u pl : Option BestHit) : List (String × Option BestHit) :=
  [("movie", m), ("tv_series", tv), ("person", p), ("user", u), ("playlist", pl)]

/-- Expression potentialBest.map(c => c.hit).filter(Boolean)
(search.controller.ts line 141). -/
def allHits (cands : List (String × Option BestHit)) : List BestHit :=
  cands.filterMap (fun c => c.2)

/-- Candidate metadata of every present hit, in candidate order. -/
def candMetas (maxT maxP : ℚ) (cands : List (String × Option BestHit)) : List BestMeta :=
  cands.filterMap (fun c => c.2.map (metaOf maxT maxP c.1))

/-- Best-result selection of search.controller.ts lines 133-160, as a function
of the five rank-1 hits: per-request maxima (floored at 1), then a fold that
keeps the strictly best hybrid score. -/
def searchBestMeta (m tv p u pl : Option BestHit) : Option BestMeta :=
  let cands := potentialBest m tv p u pl
  let hits := allHits cands
  let maxT := maxOr1 (hits.map textScore)
  let maxP := maxOr1 (hits.map (fun h => popMetric h.document))
  cands.foldl (stepBest maxT maxP) none

/-- Candidate meta list of a five-hit input, scored against the same
per-request maxima that searchBestMeta uses. -/
def bestCandMetas (m tv p u pl : Option BestHit) : List BestMeta :=
  let cands := potentialBest m tv p u pl
  let hits := allHits cands
  candMetas (maxOr1 (hits.map textScore))
    (maxOr1 (hits.map (fun h => popMetric h.document))) cands

/-- Modelled from the spec: the selector of section 4.3 exactly as worded, with
specPopMetric (first present field) in place of the implemented falsy-fallback
chain; identical otherwise. Used only to compare the two selectors. -/
def specBestMeta (m tv p u pl : Option BestHit) : Option BestMeta :=
  let cands := potentialBest m tv p u pl
  let hits := allHits cands
  let maxT := maxOr1 (hits.map (fun h => h.text_match.getD 0))
  let maxP := maxOr1 (hits.map (fun h => specPopMetric h.document))
  cands.foldl (fun acc c =>
    match c.2 with
    | none => acc
    | some h => keepMax acc ⟨c.1, h.document.id,
        (h.text_match.getD 0 / maxT) * (9/10) + (specPopMetric h.document / maxP) * (1/10)⟩)
    none

/-- Generic failure message sent by every catch block of the controller. -/
def genericMsg : String := "An internal server error occurred"

/-- Pagination block of a response. -/
structure Pagination where
  total_results : ℕ
  total_pages : ℕ
  current_page : ℕ
  per_page : ℕ
deriving DecidableEq

/-- Expression Math.ceil(found / per_page) on natural inputs. -/
def jsCeilDiv (a b : ℕ) : ℕ := (a + b - 1) / b

/-- Body of a successful single-collection response. -/
structure SingleResponse where
  data : List StoreRecord
  pagination : Pagination
deriving DecidableEq

/-- Reply of a single-collection handler: either the 200 body or the status
and message of the catch block. -/
inductive Reply where
  | ok (r : SingleResponse)
  | err (status : ℕ) (msg : String)
deriving DecidableEq

/-- Shared core of the five single-collection handlers (searchMovies lines
301-334 and its clones): map the hits to ids, short-circuit with a zero
pagination block when no hit came back, otherwise hydrate and paginate;
any engine or store failure is caught and turned into the generic 500.
The first component is the reply, the second the logged error, the third
the list of id sets actually sent to the store. -/
def searchSingleCollection (engine : Except String EngineResult)
    (store : Except String (List StoreRecord)) (page per_page : ℕ) :
    Reply × Option String × List (List String) :=
  match engine with
  | .error e => (.err 500 genericMsg, some e, [])
  | .ok r =>
    let ids := hitIds r.hits
    if ids.isEmpty then
      (.ok ⟨[], ⟨0, 0, page, per_page⟩⟩, none, [])
    else
      match store with
      | .error e => (.err 500 genericMsg, some e, [ids])
      | .ok data =>
        (.ok ⟨hydrateByIds ids data, ⟨r.found, jsCeilDiv r.found per_page, page, per_page⟩⟩,
          none, [ids])

/-- JS truthiness of an optional numeric filter bound: undefined and 0 are
falsy. -/
def numTruthy (x : Option ℤ) : Bool :=
  match x with
  | some v => v != 0
  | none => false

/-- Tri-state range block shared by every numeric dimension of searchMovies
(lines 280-295) and searchTVSeries (lines 376-409): the source repeats this
if / else if / else if block once per dimension with the field name changed. -/
def rangeFilterTerms (field : String) (lo hi : Option ℤ) : List String :=
  if numTruthy lo && numTruthy hi then
    [field ++ ": [" ++ toString (lo.getD 0) ++ ".." ++ toString (hi.getD 0) ++ "]"]
  else if numTruthy lo then [field ++ ": >" ++ toString (lo.getD 0)]
  else if numTruthy hi then [field ++ ": <" ++ toString (hi.getD 0)]
  else []

/-- Genre id-list membership term (searchMovies lines 272-277), taken after
the comma split and parseInt of the raw parameter. -/
def genreTerm (genre_ids : List ℤ) : List String :=
  if genre_ids.isEmpty then []
  else ["genre_ids: [" ++ String.intercalate "," (genre_ids.map toString) ++ "]"]

/-- Filter term list of searchMovies (lines 269-295), in push order. -/
def movieFilters (genre_ids : List ℤ)
    (runtime_min runtime_max release_date_min release_date_max : Option ℤ) : List String :=
  genreTerm genre_ids ++ rangeFilterTerms "runtime" runtime_min runtime_max ++
    rangeFilterTerms "release_date" release_date_min release_date_max

/-- Filter term list of searchTVSeries (lines 366-409), in push order. -/
def tvFilters (genre_ids : List ℤ) (smin smax emin emax vmin vmax fmin fmax : Option ℤ) :
    List String :=
  genreTerm genre_ids ++ rangeFilterTerms "number_of_seasons" smin smax ++
    rangeFilterTerms "number_of_episodes" emin emax ++
    rangeFilterTerms "vote_average" vmin vmax ++
    rangeFilterTerms "first_air_date" fmin fmax

/-- Join of lines 297-299: filter_by is set only when at least one term was
pushed, and terms are joined with the logical AND of the filter grammar. -/
def joinFilters (filters : List String) : Option String :=
  if filters.isEmpty then none else some (String.intercalate " && " filters)

/-- Complete filter_by value of searchMovies. -/
def movieFilterBy (genre_ids : List ℤ) (rmin rmax dmin dmax : Option ℤ) : Option String :=
  joinFilters (movieFilters genre_ids rmin rmax dmin dmax)

/-- Sort expression of searchMovies (lines 258-265). -/
def movieSortBy (sort_by : String) : String :=
  "_text_match(buckets: 10):desc," ++ sort_by ++ ":desc"

/-- Sort expression of searchTVSeries (lines 356-363). -/
def tvSeriesSortBy (sort_by : String) : String :=
  "_text_match(buckets: 10):desc," ++ sort_by ++ ":desc"

/-- Sort expression of searchPersons (lines 465-472). -/
def personSortBy (sort_by : String) : String :=
  "_text_match(buckets: 10):desc," ++ sort_by ++ ":desc"

/-- Sort expression of searchUsers (line 527): fixed, the users endpoint takes
no caller sort field. -/
def usersSortBy : String := "_text_match(buckets: 10):desc, followers_count:desc"

/-- Sort expression of searchPlaylists (lines 584 and 592): only the caller
field, with no text-match component. -/
def playlistSortBy (sort_by : String) : String := sort_by ++ ":desc"

/-- Permission filter getPlaylistPermissionFilter (search.controller.ts lines
628-630): the ternary tests JS truthiness of userId, so an absent id and the
empty string both fall to the anonymous branch. -/
def getPlaylistPermissionFilter (userId : Option String) : String :=
  match userId with
  | some u =>
    if u = "" then "is_private:false"
    else "is_private:false || owner_id:=" ++ u ++ " || guest_ids:=" ++ u
  | none => "is_private:false"

/-- Fields of one entry of a multiSearch batch that the controller sets
statically (the query text and page size are request values shared by all
five entries). -/
structure MultiQuerySpec where
  collection : String
  query_by : String
  filter_by : Option String
  sort_by : Option String
deriving DecidableEq

/-- Search batch of the best-results endpoint (search.controller.ts lines
115-121). -/
def bestResultsSearches (userId : Option String) : List MultiQuerySpec :=
  [⟨"movies", "original_title,titles", none, some "_text_match(buckets: 10):desc,popularity:desc"⟩,
   ⟨"tv_series", "original_name,names", none, some "_text_match(buckets: 10):desc,popularity:desc"⟩,
   ⟨"persons", "name,also_known_as", none, some "_text_match(buckets: 10):desc,popularity:desc"⟩,
   ⟨"users", "username,full_name", none, some "_text_match(buckets: 10):desc,followers_count:desc"⟩,
   ⟨"playlists", "title,description", some (getPlaylistPermissionFilter userId),
     some "_text_match(buckets: 10):desc,likes_count:desc"⟩]

/-- Search batch of the searchAll variant (FastifySupabase.ts bundle, lines
226-232): no entry carries a sort expression. -/
def allSearches (userId : Option String) : List MultiQuerySpec :=
  [⟨"movies", "original_title,titles", none, none⟩,
   ⟨"tv_series", "original_name,names", none, none⟩,
   ⟨"persons", "name,also_known_as", none, none⟩,
   ⟨"users", "username,full_name", none, none⟩,
   ⟨"playlists", "title,description", some (getPlaylistPermissionFilter userId), none⟩]

/-- Playlist row fields consulted by the permission filter. -/
structure PlaylistRow where
  is_private : Bool
  owner_id : String
  guest_ids : List String

/-- Modelled from the spec: the fragment of the engine filter grammar of
section 6 that the playlist permission filter uses (equality atoms combined
with ||). The engine is an external collaborator, so only this interface
grammar is modelled; render gives the wire string, denote the admission
predicate on a playlist row. -/
inductive PFilter where
  | notPrivate
  | ownerIs (u : String)
  | guestHas (u : String)
  | orF (a b : PFilter)

/-- Wire syntax of a filter expression, following the grammar of section 6. -/
def PFilter.render : PFilter → String
  | .notPrivate => "is_private:false"
  | .ownerIs u => "owner_id:=" ++ u
  | .guestHas u => "guest_ids:=" ++ u
  | .orF a b => a.render ++ " || " ++ b.render

/-- Records admitted by a filter expression, following section 6: equality on
scalar fields, membership on the array field guest_ids, disjunction for ||. -/
def PFilter.denote : PFilter → PlaylistRow → Bool
  | .notPrivate, r => !r.is_private
  | .ownerIs u, r => r.owner_id == u
  | .guestHas u, r => r.guest_ids.contains u
  | .orF a b, r => a.denote r || b.denote r

/-- Per-type block of the multi-collection response. -/
structure TypeBlock where
  data : List StoreRecord
  pagination : Pagination
deriving DecidableEq

/-- Body of a successful multi-collection response (search.controller.ts lines
196-243). -/
structure BestResponse where
  bestResult : Option (String × Option StoreRecord)
  movies : TypeBlock
  tv_series : TypeBlock
  persons : TypeBlock
  users : TypeBlock
  playlists : TypeBlock
deriving DecidableEq

/-- Reply of the multi-collection handler. -/
inductive MultiReply where
  | ok (r : BestResponse)
  | err (status : ℕ) (msg : String)
deriving DecidableEq

/-- Pagination block of a multi-collection per-type result: current_page is
fixed at 1 and per_page is the shared results-per-type size. -/
def multiPagination (found rpt : ℕ) : Pagination :=
  ⟨found, jsCeilDiv found rpt, 1, rpt⟩

/-- Private helper hydrateByIds including its store round-trip
(search.controller.ts lines 632-640): no fetch at all on an empty id list,
a store error becomes a thrown message naming the table, and a successful
fetch is recorded in the second component. -/
def hydrateFetch (table : String) (ids : List String)
    (store : Except String (List StoreRecord)) :
    Except String (List StoreRecord × List (String × List String)) :=
  if ids.isEmpty then .ok ([], [])
  else
    match store with
    | .error e => .error ("Failed to hydrate from " ++ table ++ ": " ++ e)
    | .ok data => .ok (hydrateByIds ids data, [(table, ids)])

/-- Best-result selection applied to the five rank-1 hits of a batch. -/
def headBestMeta (rm rt rp ru rpl : EngineResult) : Option BestMeta :=
  searchBestMeta (headHit rm) (headHit rt) (headHit rp) (headHit ru) (headHit rpl)

/-- Switch of search.controller.ts lines 178-193: the winning record is looked
up in the already hydrated list of its own type; an unknown tag gives null. -/
def pickBestData (m : BestMeta) (hm ht hp hu hpl : List StoreRecord) : Option StoreRecord :=
  if m.type = "movie" then hm.find? (fun r => r.id == m.id)
  else if m.type = "tv_series" then ht.find? (fun r => r.id == m.id)
  else if m.type = "person" then hp.find? (fun r => r.id == m.id)
  else if m.type = "user" then hu.find? (fun r => r.id == m.id)
  else if m.type = "playlist" then hpl.find? (fun r => r.id == m.id)
  else none

/-- Body of the best-results endpoint after the engine batch returned
(search.controller.ts lines 125-243): five hydrations joined by Promise.all
(a single failure fails the join), then the response assembly. The second
component collects the store fetches that were issued. -/
def bestResultBody (rm rt rp ru rpl : EngineResult)
    (stM stT stP stU stPl : Except String (List StoreRecord)) (rpt : ℕ) :
    Except String (BestResponse × List (String × List String)) :=
  match hydrateFetch "media_movie" (hitIds rm.hits) stM with
  | .error e => .error e
  | .ok (hm, f1) =>
    match hydrateFetch "media_tv_series" (hitIds rt.hits) stT with
    | .error e => .error e
    | .ok (ht, f2) =>
      match hydrateFetch "media_person" (hitIds rp.hits) stP with
      | .error e => .error e
      | .ok (hp, f3) =>
        match hydrateFetch "user" (hitIds ru.hits) stU with
        | .error e => .error e
        | .ok (hu, f4) =>
          match hydrateFetch "playlists" (hitIds rpl.hits) stPl with
          | .error e => .error e
          | .ok (hpl, f5) =>
            let best := (headBestMeta rm rt rp ru rpl).map
              (fun m => (m.type, pickBestData m hm ht hp hu hpl))
            .ok (⟨best,
                  ⟨hm, multiPagination rm.found rpt⟩,
                  ⟨ht, multiPagination rt.found rpt⟩,
                  ⟨hp, multiPagination rp.found rpt⟩,
                  ⟨hu, multiPagination ru.found rpt⟩,
                  ⟨hpl, multiPagination rpl.found rpt⟩⟩,
                 f1 ++ f2 ++ f3 ++ f4 ++ f5)

/-- Complete best-results handler (search.controller.ts lines 107-249): the
engine batch either yields five aligned results or rejects as a whole, and
every failure is caught by the catch block, which logs the cause and sends
the generic 500 with no detail. The second component is the logged error. -/
def searchBestResultHandler
    (multi : Except String (EngineResult × EngineResult × EngineResult × EngineResult × EngineResult))
    (stM stT stP stU stPl : Except String (List StoreRecord)) (rpt : ℕ) :
    MultiReply × Option String :=
  match multi with
  | .error e => (.err 500 genericMsg, some e)
  | .ok (rm, rt, rp, ru, rpl) =>
    match bestResultBody rm rt rp ru rpl stM stT stP stU stPl rpt with
    | .error e => (.err 500 genericMsg, some e)
    | .ok (r, _) => (.ok r, none)

/-- Store fetch issued by one hydration call: none when the id list is empty. -/
def fetchOf (table : String) (ids : List String) : List (String × List String) :=
  if ids.isEmpty then [] else [(table, ids)]

/-- Store fetches issued by the Promise.all of the best-results variant
(search.controller.ts lines 162-174): exactly the five per-type hydrations. -/
def bestResultsFetchPlan (rm rt rp ru rpl : EngineResult) : List (String × List String) :=
  fetchOf "media_movie" (hitIds rm.hits) ++ fetchOf "media_tv_series" (hitIds rt.hits) ++
    fetchOf "media_person" (hitIds rp.hits) ++ fetchOf "user" (hitIds ru.hits) ++
    fetchOf "playlists" (hitIds rpl.hits)

/-- Table map getTableNameForType of the searchAll variant (FastifySupabase.ts
bundle, lines 729-738); a tag outside the map would give undefined. -/
def getTableNameForType (t : String) : String :=
  if t = "movie" then "media_movie"
  else if t = "tv_series" then "media_tv_series"
  else if t = "person" then "media_person"
  else if t = "user" then "user"
  else if t = "playlist" then "playlists"
  else ""

/-- Store fetches issued by the Promise.all of the searchAll variant
(FastifySupabase.ts bundle, lines 273-287): the five per-type hydrations
plus, when a best candidate exists, a separate hydrateByIds for that single
id (the sixth array entry). -/
def searchAllFetchPlan (rm rt rp ru rpl : EngineResult) : List (String × List String) :=
  bestResultsFetchPlan rm rt rp ru rpl ++
    (match headBestMeta rm rt rp ru rpl with
     | some m => [(getTableNameForType m.type, [m.id])]
     | none => [])

/-- Hit A of the ranking scenario of section 8: relevance 8.0, popularity 100. -/
def exHitA : BestHit := ⟨⟨"A", some 100, none, none⟩, some 8⟩

/-- Hit B of the ranking scenario of section 8: relevance 4.0, popularity 500. -/
def exHitB : BestHit := ⟨⟨"B", some 500, none, none⟩, some 4⟩

/-- Movie hit of the popularity-fallback counterexample: relevance 10,
popularity 100. -/
def cexMovieHit : BestHit := ⟨⟨"m1", some 100, none, none⟩, some 10⟩

/-- User hit of the popularity-fallback counterexample: relevance 10, a
present popularity field with value 0, followers_count 1000. -/
def cexUserHit : BestHit := ⟨⟨"u1", some 0, some 1000, none⟩, some 10⟩

/-- Unique characterization of find? over a list with pairwise distinct ids. -/
theorem find?_key_unique {data : List StoreRecord}
    (hnd : (data.map (fun r => r.id)).Nodup) (i : String) (r : StoreRecord) :
    data.find? (fun x => x.id == i) = some r ↔ r ∈ data ∧ r.id = i := by
  induction data with
  | nil => simp
  | cons a l ih =>
    rw [List.map_cons, List.nodup_cons] at hnd
    by_cases h : a.id = i
    · rw [List.find?_cons_of_pos _ (by simpa using h)]
      constructor
      · intro h2
        injection h2 with h2
        subst h2
        exact ⟨List.mem_cons_self a l, h⟩
      · rintro ⟨hm, hid⟩
        rcases List.mem_cons.mp hm with rfl | hm
        · rfl
        · exfalso
          apply hnd.1
          have : r.id ∈ l.map (fun r => r.id) := List.mem_map_of_mem _ hm
          rwa [hid, ← h] at this
    · rw [List.find?_cons_of_neg _ (by simpa using h)]
      rw [ih hnd.2]
      constructor
      · rintro ⟨hm, hid⟩
        exact ⟨List.mem_cons_of_mem _ hm, hid⟩
      · rintro ⟨hm, hid⟩
        rcases List.mem_cons.mp hm with rfl | hm
        · exact absurd hid h
        · exact ⟨hm, hid⟩

/-- Lookup by a unique id is invariant under permutation of the store reply. -/
theorem find?_key_perm {data data2 : List StoreRecord}
    (hnd : (data.map (fun r => r.id)).Nodup) (hperm : data2.Perm data) (i : String) :
    data2.find? (fun x => x.id == i) = data.find? (fun x => x.id == i) := by
  have hnd2 : (data2.map (fun r => r.id)).Nodup := ((hperm.map _).nodup_iff).mpr hnd
  cases h : data.find? (fun x => x.id == i) with
  | some r =>
    rcases (find?_key_unique hnd i r).mp h with ⟨hm, hid⟩
    exact (find?_key_unique hnd2 i r).mpr ⟨hperm.mem_iff.mpr hm, hid⟩
  | none =>
    cases h2 : data2.find? (fun x => x.id == i) with
    | none => rfl
    | some r =>
      rcases (find?_key_unique hnd2 i r).mp h2 with ⟨hm, hid⟩
      rw [(find?_key_unique hnd i r).mpr ⟨hperm.mem_iff.mp hm, hid⟩] at h
      simp at h

/-- Map lookup agrees with first-match lookup when ids are pairwise distinct. -/
theorem jsMapGet_eq_find? {data : List StoreRecord}
    (hnd : (data.map (fun r => r.id)).Nodup) (i : String) :
    jsMapGet data i = data.find? (fun x => x.id == i) :=
  find?_key_perm hnd (List.reverse_perm data) i

/-- Folding keepMax from a present accumulator never loses the accumulator. -/
theorem foldl_keepMax_isSome (l : List BestMeta) (a : BestMeta) :
    ∃ m, l.foldl keepMax (some a) = some m := by
  induction l generalizing a with
  | nil => exact ⟨a, rfl⟩
  | cons c t ih =>
    rw [List.foldl_cons]
    show ∃ m, List.foldl keepMax (if a.score < c.score then some c else some a) t = some m
    split
    · exact ih c
    · exact ih a

/-- Characterization of the keepMax fold from a present accumulator: the result
either is the accumulator, still dominating every element, or the first list
element that strictly beats everything before it and at least ties everything
after it. -/
theorem foldl_keepMax_acc_spec (l : List BestMeta) (a m : BestMeta)
    (h : l.foldl keepMax (some a) = some m) :
    (m = a ∧ ∀ c ∈ l, c.score ≤ a.score) ∨
      (∃ l1 l2, l = l1 ++ m :: l2 ∧ a.score < m.score ∧
        (∀ c ∈ l1, c.score < m.score) ∧ (∀ c ∈ l2, c.score ≤ m.score)) := by
  induction l generalizing a with
  | nil =>
    left
    simp only [List.foldl_nil, Option.some.injEq] at h
    exact ⟨h.symm, by simp⟩
  | cons c t ih =>
    rw [List.foldl_cons] at h
    by_cases hc : a.score < c.score
    · rw [show keepMax (some a) c = some c from by simp [keepMax, hc]] at h
      rcases ih c h with ⟨rfl, hall⟩ | ⟨l1, l2, rfl, hlt, h1, h2⟩
      · right
        exact ⟨[], t, rfl, hc, by simp, hall⟩
      · right
        refine ⟨c :: l1, l2, rfl, lt_trans hc hlt, ?_, h2⟩
        intro x hx
        rcases List.mem_cons.mp hx with rfl | hx
        · exact hlt
        · exact h1 x hx
    · rw [show keepMax (some a) c = some a from by simp [keepMax, hc]] at h
      rcases ih a h with ⟨rfl, hall⟩ | ⟨l1, l2, rfl, hlt, h1, h2⟩
      · left
        refine ⟨rfl, ?_⟩
        intro x hx
        rcases List.mem_cons.mp hx with rfl | hx
        · exact le_of_not_lt hc
        · exact hall x hx
      · right
        refine ⟨c :: l1, l2, rfl, hlt, ?_, h2⟩
        intro x hx
        rcases List.mem_cons.mp hx with rfl | hx
        · exact lt_of_le_of_lt (le_of_not_lt hc) hlt
        · exact h1 x hx

/-- Result of the keepMax fold from an empty accumulator: the first element
attaining the maximum score. -/
theorem foldl_keepMax_none_spec (l : List BestMeta) (m : BestMeta)
    (h : l.foldl keepMax none = some m) :
    ∃ l1 l2, l = l1 ++ m :: l2 ∧ (∀ c ∈ l1, c.score < m.score) ∧
      (∀ c ∈ l, c.score ≤ m.score) := by
  cases l with
  | nil => simp at h
  | cons c t =>
    rw [List.foldl_cons] at h
    rcases foldl_keepMax_acc_spec t c m h with ⟨rfl, hall⟩ | ⟨l1, l2, rfl, hlt, h1, h2⟩
    · refine ⟨[], t, rfl, by simp, ?_⟩
      intro x hx
      rcases List.mem_cons.mp hx with rfl | hx
      · exact le_refl _
      · exact hall x hx
    · refine ⟨c :: l1, l2, rfl, ?_, ?_⟩
      · intro x hx
        rcases List.mem_cons.mp hx with rfl | hx
        · exact hlt
        · exact h1 x hx
      · intro x hx
        rcases List.mem_cons.mp hx with rfl | hx
        · exact le_of_lt hlt
        · rcases List.mem_append.mp hx with hx | hx
          · exact le_of_lt (h1 x hx)
          · rcases List.mem_cons.mp hx with rfl | hx
            · exact le_refl _
            · exact h2 x hx

/-- Emptiness characterization of the keepMax fold. -/
theorem foldl_keepMax_none_eq_none (l : List BestMeta) :
    l.foldl keepMax none = none ↔ l = [] := by
  cases l with
  | nil => simp
  | cons c t =>
    simp only [List.foldl_cons]
    rcases foldl_keepMax_isSome t c with ⟨m, hm⟩
    rw [show keepMax none c = some c from rfl, hm]
    simp

/-- Selection fold over candidates equals the keepMax fold over the metadata
of the present candidates. -/
theorem foldl_stepBest_eq (maxT maxP : ℚ) (l : List (String × Option BestHit))
    (acc : Option BestMeta) :
    l.foldl (stepBest maxT maxP) acc = (candMetas maxT maxP l).foldl keepMax acc := by
  induction l generalizing acc with
  | nil => rfl
  | cons c t ih =>
    rcases c with ⟨t0, o⟩
    cases o with
    | none => simpa [candMetas, stepBest] using ih acc
    | some h => simpa [candMetas, stepBest] using ih (keepMax acc (metaOf maxT maxP t0 h))

/-- Selection as a keepMax fold over the candidate metadata. -/
theorem searchBestMeta_eq_foldl (m tv p u pl : Option BestHit) :
    searchBestMeta m tv p u pl = (bestCandMetas m tv p u pl).foldl keepMax none :=
  foldl_stepBest_eq _ _ _ _

/-- Membership in the candidate metadata list comes from a present hit. -/
theorem mem_candMetas {maxT maxP : ℚ} {cands : List (String × Option BestHit)} {mt : BestMeta}
    (h : mt ∈ candMetas maxT maxP cands) :
    ∃ c ∈ cands, ∃ hh, c.2 = some hh ∧ mt = metaOf maxT maxP c.1 hh := by
  rcases List.mem_filterMap.mp h with ⟨c, hc, hf⟩
  rcases Option.map_eq_some'.mp hf with ⟨hh, h2, h3⟩
  exact ⟨c, hc, hh, h2, h3.symm⟩

/-- Explicit shape of the candidate metadata of the five named slots. -/
theorem candMetas_potentialBest (maxT maxP : ℚ) (m tv p u pl : Option BestHit) :
    candMetas maxT maxP (potentialBest m tv p u pl) =
      (m.map (metaOf maxT maxP "movie")).toList ++
      (tv.map (metaOf maxT maxP "tv_series")).toList ++
      (p.map (metaOf maxT maxP "person")).toList ++
      (u.map (metaOf maxT maxP "user")).toList ++
      (pl.map (metaOf maxT maxP "playlist")).toList := by
  cases m <;> cases tv <;> cases p <;> cases u <;> cases pl <;> rfl

/-- Integer ceiling division agrees with the rational ceiling for positive
divisors. -/
theorem jsCeilDiv_eq_ceil (a b : ℕ) (hb : 1 ≤ b) :
    jsCeilDiv a b = ⌈(a : ℚ) / (b : ℚ)⌉₊ := by
  have hb0 : (0 : ℚ) < (b : ℚ) := by exact_mod_cast hb
  rcases Nat.eq_zero_or_pos a with rfl | ha
  · rw [jsCeilDiv, Nat.div_eq_of_lt (by omega)]
    simp
  · have h1 : jsCeilDiv a b * b ≤ a + b - 1 := Nat.div_mul_le_self _ _
    have h2 : a + b - 1 < (jsCeilDiv a b + 1) * b :=
      (Nat.div_lt_iff_lt_mul (by omega)).mp (Nat.lt_succ_self _)
    have hq1 : 1 ≤ jsCeilDiv a b := by
      rw [jsCeilDiv, Nat.one_le_div_iff (by omega)]
      omega
    have h1n : jsCeilDiv a b * b + 1 ≤ a + b := by omega
    have h2n : a + b ≤ jsCeilDiv a b * b + b := by
      rw [Nat.succ_mul] at h2
      omega
    have hc1 : (jsCeilDiv a b : ℚ) * b + 1 ≤ (a : ℚ) + b := by exact_mod_cast h1n
    have hc2 : (a : ℚ) + b ≤ (jsCeilDiv a b : ℚ) * b + b := by exact_mod_cast h2n
    rw [eq_comm, Nat.ceil_eq_iff (by omega)]
    constructor
    · rw [Nat.cast_sub hq1, lt_div_iff₀ hb0]
      push_cast
      nlinarith [hc1]
    · rw [div_le_iff₀ hb0]
      nlinarith [hc2]

/-- Ceiling division is zero exactly on a zero numerator. -/
theorem jsCeilDiv_eq_zero_iff (a b : ℕ) (hb : 1 ≤ b) : jsCeilDiv a b = 0 ↔ a = 0 := by
  rw [jsCeilDiv]
  constructor
  · intro h
    by_contra ha
    have h1 : 1 ≤ (a + b - 1) / b := by
      rw [Nat.one_le_div_iff (by omega)]
      omega
    omega
  · intro h
    subst h
    rw [Nat.div_eq_of_lt (by omega)]

/-- C2: for every non-empty id list and every permutation of the store reply
(with pairwise distinct record ids), hydration returns exactly the store
records whose id occurs in the input list, ordered by the input id order via
a per-id lookup; ids with no matching record are dropped silently, so the
output never depends on the store-returned order. -/
theorem C2_hydration_order (ids : List String) (data data2 : List StoreRecord)
    (hne : ids ≠ []) (hnd : (data.map (fun r => r.id)).Nodup)
    (hperm : data2.Perm data) :
    hydrateByIds ids data2 = ids.filterMap (fun i => data.find? (fun x => x.id == i)) ∧
    ∀ r, r ∈ hydrateByIds ids data2 ↔ r ∈ data ∧ r.id ∈ ids := by
  have hget : ∀ i, jsMapGet data2 i = data.find? (fun x => x.id == i) := fun i =>
    find?_key_perm hnd ((List.reverse_perm data2).trans hperm) i
  have heq : hydrateByIds ids data2 =
      ids.filterMap (fun i => data.find? (fun x => x.id == i)) := by
    rw [hydrateByIds, if_neg (by simpa using hne)]
    rw [show (fun i => jsMapGet data2 i) = fun i => data.find? (fun x => x.id == i) from
      funext hget]
  refine ⟨heq, ?_⟩
  intro r
  rw [heq, List.mem_filterMap]
  constructor
  · rintro ⟨i, hi, hf⟩
    rcases (find?_key_unique hnd i r).mp hf with ⟨hm, hid⟩
    exact ⟨hm, hid ▸ hi⟩
  · rintro ⟨hm, hid⟩
    exact ⟨r.id, hid, (find?_key_unique hnd r.id r).mpr ⟨hm, rfl⟩⟩

/-- C2 witness: a two-id list against a store reply returned in the opposite
order still hydrates in the input id order. -/
theorem C2_hydration_order_witness :
    hydrateByIds ["b", "a"] [⟨"a", 1⟩, ⟨"b", 2⟩] =
      ["b", "a"].filterMap
        (fun i => [(⟨"b", 2⟩ : StoreRecord), ⟨"a", 1⟩].find? (fun x => x.id == i)) ∧
    ∀ r, r ∈ hydrateByIds ["b", "a"] [⟨"a", 1⟩, ⟨"b", 2⟩] ↔
      r ∈ [(⟨"b", 2⟩ : StoreRecord), ⟨"a", 1⟩] ∧ r.id ∈ ["b", "a"] :=
  C2_hydration_order ["b", "a"] [⟨"b", 2⟩, ⟨"a", 1⟩] [⟨"a", 1⟩, ⟨"b", 2⟩]
    (by decide) (by decide) (by decide)

/-- C9: an empty or absent engine hit list short-circuits the handler: the
store is never queried (the issued fetch list is empty, and the reply does not
depend on the store value, even a failing one), and the reply is the success
with empty data and the all-zero pagination echoing page and per_page. -/
theorem C9_zero_hit_short_circuit (hits : Option (List BestHit)) (found : ℕ)
    (store : Except String (List StoreRecord)) (page per_page : ℕ)
    (h : hits = none ∨ hits = some []) :
    searchSingleCollection (.ok ⟨hits, found⟩) store page per_page =
      (.ok ⟨[], ⟨0, 0, page, per_page⟩⟩, none, []) := by
  rcases h with rfl | rfl <;> rfl

/-- C9 witness: zero hits with a failing store still succeed with the zero
pagination block, echoing page 3 and per_page 7. -/
theorem C9_zero_hit_short_circuit_witness :
    searchSingleCollection (.ok ⟨some [], 42⟩) (.error "store down") 3 7 =
      (.ok ⟨[], ⟨0, 0, 3, 7⟩⟩, none, []) :=
  C9_zero_hit_short_circuit (some []) 42 (.error "store down") 3 7 (Or.inr rfl)

/-- C10: a numeric bound supplied as 0 is treated as absent by the filter
builder: bounds (0, max) emit only the strictly-less-than term, bounds
(0, absent) emit nothing, and whole filter lists built from zero minima are
empty. -/
theorem C10_zero_bound_treated_absent (field : String) (b : ℤ) (hb : b ≠ 0) :
    rangeFilterTerms field (some 0) (some b) = [field ++ ": <" ++ toString b] ∧
    rangeFilterTerms field (some 0) none = [] ∧
    movieFilters [] (some 0) none (some 0) none = [] ∧
    tvFilters [] (some 0) (some b) (some 0) none (some 0) none (some 0) none =
      ["number_of_seasons: <" ++ toString b] := by
  have h2 : numTruthy (some b) = true := by simp [numTruthy, hb]
  refine ⟨?_, rfl, rfl, ?_⟩
  · simp [rangeFilterTerms, numTruthy, hb]
  · simp [tvFilters, genreTerm, rangeFilterTerms, numTruthy, hb]

/-- C10 witness: the zero bound cases at max = 20. -/
theorem C10_zero_bound_treated_absent_witness :
    rangeFilterTerms "runtime" (some 0) (some 20) = ["runtime: <" ++ toString (20 : ℤ)] ∧
    rangeFilterTerms "runtime" (some 0) none = [] ∧
    movieFilters [] (some 0) none (some 0) none = [] ∧
    tvFilters [] (some 0) (some 20) (some 0) none (some 0) none (some 0) none =
      ["number_of_seasons: <" ++ toString (20 : ℤ)] :=
  C10_zero_bound_treated_absent "runtime" 20 (by decide)

/-- C6 counterexample: bounds (0, 20) are both present, yet the builder emits
the strictly-less-than term instead of the closed range term the claim
requires for two present bounds. -/
theorem C6_filter_tristate_cex :
    rangeFilterTerms "runtime" (some 0) (some 20) = ["runtime: <20"] ∧
    rangeFilterTerms "runtime" (some 0) (some 20) ≠ ["runtime: [0..20]"] := by
  constructor
  · decide
  · decide

/-- C6 (amended): for nonzero bounds the tri-state logic is as claimed - both
bounds give the closed inclusive range term, only a minimum gives the
strictly-greater term, only a maximum the strictly-less term, no bounds give
no term - and active dimensions are joined with the logical AND; a bound that
is absent or 0 counts as not supplied. -/
theorem C6_filter_tristate_amended (field : String) (a b c d : ℤ)
    (ha : a ≠ 0) (hb : b ≠ 0) (hc : c ≠ 0) (hd : d ≠ 0) :
    rangeFilterTerms field (some a) (some b) =
      [field ++ ": [" ++ toString a ++ ".." ++ toString b ++ "]"] ∧
    rangeFilterTerms field (some a) none = [field ++ ": >" ++ toString a] ∧
    rangeFilterTerms field none (some b) = [field ++ ": <" ++ toString b] ∧
    rangeFilterTerms field none none = [] ∧
    movieFilterBy [] (some a) (some b) (some c) (some d) =
      some ("runtime: [" ++ toString a ++ ".." ++ toString b ++ "]" ++ " && " ++
        ("release_date: [" ++ toString c ++ ".." ++ toString d ++ "]")) := by
  have hta : numTruthy (some a) = true := by simp [numTruthy, ha]
  have htb : numTruthy (some b) = true := by simp [numTruthy, hb]
  have htc : numTruthy (some c) = true := by simp [numTruthy, hc]
  have htd : numTruthy (some d) = true := by simp [numTruthy, hd]
  refine ⟨?_, ?_, ?_, rfl, ?_⟩
  · simp [rangeFilterTerms, hta, htb]
  · simp [rangeFilterTerms, numTruthy, ha]
  · simp [rangeFilterTerms, numTruthy, hb]
  · simp [movieFilterBy, movieFilters, joinFilters, genreTerm, rangeFilterTerms,
      hta, htb, htc, htd]
    rfl

/-- C6 witness: the amended tri-state behavior at bounds 10, 20, 5, 6. -/
theorem C6_filter_tristate_amended_witness :
    rangeFilterTerms "f" (some 10) (some 20) =
      ["f" ++ ": [" ++ toString (10 : ℤ) ++ ".." ++ toString (20 : ℤ) ++ "]"] ∧
    rangeFilterTerms "f" (some 10) none = ["f" ++ ": >" ++ toString (10 : ℤ)] ∧
    rangeFilterTerms "f" none (some 20) = ["f" ++ ": <" ++ toString (20 : ℤ)] ∧
    rangeFilterTerms "f" none none = [] ∧
    movieFilterBy [] (some 10) (some 20) (some 5) (some 6) =
      some ("runtime: [" ++ toString (10 : ℤ) ++ ".." ++ toString (20 : ℤ) ++ "]" ++ " && " ++
        ("release_date: [" ++ toString (5 : ℤ) ++ ".." ++ toString (6 : ℤ) ++ "]")) :=
  C6_filter_tristate_amended "f" 10 20 5 6 (by decide) (by decide) (by decide) (by decide)

/-- C7: the playlist permission filter renders, for an anonymous caller, a
filter admitting exactly the non-private rows, and for an authenticated actor
the disjunction admitting exactly rows that are non-private, owned by the
actor, or listing the actor as guest. -/
theorem C7_playlist_permission_filter (u : String) (r : PlaylistRow) (hu : u ≠ "") :
    getPlaylistPermissionFilter none = PFilter.render .notPrivate ∧
    (PFilter.denote .notPrivate r = true ↔ r.is_private = false) ∧
    getPlaylistPermissionFilter (some u) =
      PFilter.render (.orF .notPrivate (.orF (.ownerIs u) (.guestHas u))) ∧
    (PFilter.denote (.orF .notPrivate (.orF (.ownerIs u) (.guestHas u))) r = true ↔
      (r.is_private = false ∨ r.owner_id = u ∨ u ∈ r.guest_ids)) := by
  refine ⟨rfl, ?_, ?_, ?_⟩
  · cases hpriv : r.is_private <;> simp [PFilter.denote, hpriv]
  · have e1 : ("is_private:false || owner_id:=" : String) =
        "is_private:false" ++ " || " ++ "owner_id:=" := rfl
    have e2 : (" || guest_ids:=" : String) = " || " ++ "guest_ids:=" := rfl
    simp only [getPlaylistPermissionFilter, if_neg hu, PFilter.render, e1, e2,
      String.append_assoc]
  · cases hpriv : r.is_private <;>
      simp [PFilter.denote, hpriv, List.contains, List.elem_iff]

/-- C7 witness: an actor who owns a private playlist is admitted. -/
theorem C7_playlist_permission_filter_witness :
    getPlaylistPermissionFilter none = PFilter.render .notPrivate ∧
    (PFilter.denote .notPrivate ⟨true, "alice", []⟩ = true ↔
      (⟨true, "alice", []⟩ : PlaylistRow).is_private = false) ∧
    getPlaylistPermissionFilter (some "alice") =
      PFilter.render (.orF .notPrivate (.orF (.ownerIs "alice") (.guestHas "alice"))) ∧
    (PFilter.denote (.orF .notPrivate (.orF (.ownerIs "alice") (.guestHas "alice")))
        ⟨true, "alice", []⟩ = true ↔
      ((⟨true, "alice", []⟩ : PlaylistRow).is_private = false ∨
        (⟨true, "alice", []⟩ : PlaylistRow).owner_id = "alice" ∨
        "alice" ∈ (⟨true, "alice", []⟩ : PlaylistRow).guest_ids)) :=
  C7_playlist_permission_filter "alice" ⟨true, "alice", []⟩ (by decide)

/-- C4 counterexample: the single-collection playlist query sorts only by the
caller field; its sort expression cannot be written as the bucketed relevance
term followed by a secondary field, refuting the claim that every query built
by this core places relevance first. -/
theorem C4_sort_cex :
    playlistSortBy "likes_count" = "likes_count:desc" ∧
    ¬ ∃ sec, playlistSortBy "likes_count" =
      "_text_match(buckets: 10):desc," ++ sec ++ ":desc" := by
  refine ⟨rfl, ?_⟩
  rintro ⟨sec, h⟩
  have hlen := congrArg String.length h
  simp only [playlistSortBy, String.length_append] at hlen
  have h1 : ("likes_count" : String).length = 11 := rfl
  have h2 : ("_text_match(buckets: 10):desc," : String).length = 30 := rfl
  have h3 : (":desc" : String).length = 5 := rfl
  rw [h1, h2, h3] at hlen
  omega

/-- C4 (amended): the movie, tv-series and person single-collection queries
sort by bucketed relevance first and the caller field second; the users query
sorts by bucketed relevance first and the fixed followers_count field second;
the best-results batch sorts every entry by bucketed relevance first and a
fixed per-type popularity field second; but the playlist single-collection
query sorts only by the caller field, and the searchAll batch sets no sort
expression at all. -/
theorem C4_sort_amended (s : String) :
    movieSortBy s = "_text_match(buckets: 10):desc," ++ s ++ ":desc" ∧
    tvSeriesSortBy s = "_text_match(buckets: 10):desc," ++ s ++ ":desc" ∧
    personSortBy s = "_text_match(buckets: 10):desc," ++ s ++ ":desc" ∧
    usersSortBy = "_text_match(buckets: 10):desc," ++ " followers_count" ++ ":desc" ∧
    playlistSortBy s = s ++ ":desc" ∧
    (∀ q ∈ bestResultsSearches none, ∃ sec, q.sort_by =
      some ("_text_match(buckets: 10):desc," ++ sec ++ ":desc")) ∧
    (∀ q ∈ allSearches none, q.sort_by = none) := by
  refine ⟨rfl, rfl, rfl, rfl, rfl, ?_, ?_⟩
  · intro q hq
    simp only [bestResultsSearches, List.mem_cons, List.mem_singleton] at hq
    rcases hq with rfl | rfl | rfl | rfl | rfl | h
    · exact ⟨"popularity", rfl⟩
    · exact ⟨"popularity", rfl⟩
    · exact ⟨"popularity", rfl⟩
    · exact ⟨"followers_count", rfl⟩
    · exact ⟨"likes_count", rfl⟩
    · cases h
  · intro q hq
    simp only [allSearches, List.mem_cons, List.mem_singleton] at hq
    rcases hq with rfl | rfl | rfl | rfl | rfl | h
    · rfl
    · rfl
    · rfl
    · rfl
    · rfl
    · cases h

/-- C8 counterexample: the engine can report a positive total match count with
an empty hit page (a page past the last result); the handler then succeeds
with total_results 0, not the engine-reported 42, refuting the claim that
total_results always equals the engine-reported count on success. -/
theorem C8_pagination_cex :
    searchSingleCollection (.ok ⟨some [], 42⟩) (.ok []) 1 5 =
      (.ok ⟨[], ⟨0, 0, 1, 5⟩⟩, none, []) ∧ (0 : ℕ) ≠ 42 :=
  ⟨rfl, by decide⟩

/-- C8 (amended): when at least one hit came back, total_results is the
engine-reported count and total_pages its ceiling quotient by per_page; when
the hit page is empty the block is the fixed zero block; in both branches
current_page and per_page are echoed from the request; the ceiling quotient
agrees with the rational ceiling and is zero exactly when the count is
zero. -/
theorem C8_pagination_amended (hits : Option (List BestHit)) (found : ℕ)
    (data : List StoreRecord) (page per_page : ℕ) (hpp : 1 ≤ per_page) :
    (hitIds hits ≠ [] →
      searchSingleCollection (.ok ⟨hits, found⟩) (.ok data) page per_page =
        (.ok ⟨hydrateByIds (hitIds hits) data,
          ⟨found, jsCeilDiv found per_page, page, per_page⟩⟩, none, [hitIds hits])) ∧
    (hitIds hits = [] →
      searchSingleCollection (.ok ⟨hits, found⟩) (.ok data) page per_page =
        (.ok ⟨[], ⟨0, 0, page, per_page⟩⟩, none, [])) ∧
    jsCeilDiv found per_page = ⌈((found : ℕ) : ℚ) / ((per_page : ℕ) : ℚ)⌉₊ ∧
    (jsCeilDiv found per_page = 0 ↔ found = 0) := by
  refine ⟨?_, ?_, jsCeilDiv_eq_ceil found per_page hpp,
    jsCeilDiv_eq_zero_iff found per_page hpp⟩
  · intro h
    simp only [searchSingleCollection]
    rw [if_neg (by simpa using h)]
  · intro h
    simp only [searchSingleCollection]
    rw [if_pos (by simpa using h)]

/-- C8 witness: seven matches at three per page over an empty store reply give
total_pages 3, echoing page 2 and per_page 3. -/
theorem C8_pagination_amended_witness :
    searchSingleCollection (.ok ⟨some [cexMovieHit], 7⟩) (.ok []) 2 3 =
      (.ok ⟨hydrateByIds ["m1"] [], ⟨7, jsCeilDiv 7 3, 2, 3⟩⟩, none, [["m1"]]) ∧
    jsCeilDiv 7 3 = ⌈((7 : ℕ) : ℚ) / ((3 : ℕ) : ℚ)⌉₊ := by
  refine ⟨?_, (C8_pagination_amended (some [cexMovieHit]) 7 [] 2 3 (by decide)).2.2.1⟩
  exact (C8_pagination_amended (some [cexMovieHit]) 7 [] 2 3 (by decide)).1 (by decide)

/-- Hydration of a non-empty id list against a failing store propagates the
thrown message naming the table. -/
theorem hydrateFetch_error (table : String) (ids : List String) (e : String)
    (h : ids ≠ []) :
    hydrateFetch table ids (.error e) =
      .error ("Failed to hydrate from " ++ table ++ ": " ++ e) := by
  rw [hydrateFetch.eq_def, if_neg (by simpa using h)]

/-- Fetches recorded by a successful hydration call. -/
theorem hydrateFetch_fetches {table : String} {ids : List String}
    {store : Except String (List StoreRecord)} {l : List StoreRecord}
    {f : List (String × List String)}
    (h : hydrateFetch table ids store = .ok (l, f)) : f = fetchOf table ids := by
  rw [hydrateFetch.eq_def] at h
  rw [fetchOf]
  split at h
  · rename_i hemp
    injection h with h
    injection h with h1 h2
    rw [if_pos hemp]
    exact h2.symm
  · rename_i hemp
    split at h
    · exact absurd h (by simp)
    · injection h with h
      injection h with h1 h2
      rw [if_neg hemp]
      exact h2.symm

/-- Inversion of a successful multi-collection body: all five hydrations
succeeded, the response is assembled from their results, and the fetch list
is their concatenation. -/
theorem bestResultBody_inv {rm rt rp ru rpl : EngineResult}
    {stM stT stP stU stPl : Except String (List StoreRecord)} {rpt : ℕ}
    {r : BestResponse} {fs : List (String × List String)}
    (h : bestResultBody rm rt rp ru rpl stM stT stP stU stPl rpt = .ok (r, fs)) :
    ∃ hm f1 ht f2 hp f3 hu f4 hpl f5,
      hydrateFetch "media_movie" (hitIds rm.hits) stM = .ok (hm, f1) ∧
      hydrateFetch "media_tv_series" (hitIds rt.hits) stT = .ok (ht, f2) ∧
      hydrateFetch "media_person" (hitIds rp.hits) stP = .ok (hp, f3) ∧
      hydrateFetch "user" (hitIds ru.hits) stU = .ok (hu, f4) ∧
      hydrateFetch "playlists" (hitIds rpl.hits) stPl = .ok (hpl, f5) ∧
      r = ⟨(headBestMeta rm rt rp ru rpl).map
            (fun m => (m.type, pickBestData m hm ht hp hu hpl)),
          ⟨hm, multiPagination rm.found rpt⟩,
          ⟨ht, multiPagination rt.found rpt⟩,
          ⟨hp, multiPagination rp.found rpt⟩,
          ⟨hu, multiPagination ru.found rpt⟩,
          ⟨hpl, multiPagination rpl.found rpt⟩⟩ ∧
      fs = f1 ++ f2 ++ f3 ++ f4 ++ f5 := by
  rw [bestResultBody.eq_def] at h
  split at h
  · exact absurd h (by simp)
  · rename_i v1 hm f1 h1
    split at h
    · exact absurd h (by simp)
    · rename_i v2 ht f2 h2
      split at h
      · exact absurd h (by simp)
      · rename_i v3 hp f3 h3
        split at h
        · exact absurd h (by simp)
        · rename_i v4 hu f4 h4
          split at h
          · exact absurd h (by simp)
          · rename_i v5 hpl f5 h5
            injection h with h
            injection h with hr hf
            exact ⟨hm, f1, ht, f2, hp, f3, hu, f4, hpl, f5, h1, h2, h3, h4, h5,
              hr.symm, hf.symm⟩

/-- Rank-1 hit membership in its hit list. -/
theorem mem_of_headHit {r : EngineResult} {h : BestHit} (hh : headHit r = some h) :
    h ∈ r.hits.getD [] := by
  rw [headHit] at hh
  cases hl : r.hits.getD [] with
  | nil => rw [hl] at hh; cases hh
  | cons a t =>
    rw [hl] at hh
    injection hh with hh
    subst hh
    exact List.mem_cons_self _ _

/-- C3: any failing sub-query - the engine batch, or the store hydration of
any type that has ids to hydrate - fails the whole multi-collection request
with the single generic 500 reply, which carries no per-type data and no
internal detail (it is the same constant reply for every cause); the
underlying cause is only logged. -/
theorem C3_all_or_nothing
    (multi : Except String (EngineResult × EngineResult × EngineResult × EngineResult × EngineResult))
    (stM stT stP stU stPl : Except String (List StoreRecord)) (rpt : ℕ) :
    (∀ e, multi = .error e →
      searchBestResultHandler multi stM stT stP stU stPl rpt =
        (.err 500 genericMsg, some e)) ∧
    (∀ rm rt rp ru rpl, multi = .ok (rm, rt, rp, ru, rpl) →
      ((∃ e, stM = .error e ∧ hitIds rm.hits ≠ []) ∨
        (∃ e, stT = .error e ∧ hitIds rt.hits ≠ []) ∨
        (∃ e, stP = .error e ∧ hitIds rp.hits ≠ []) ∨
        (∃ e, stU = .error e ∧ hitIds ru.hits ≠ []) ∨
        (∃ e, stPl = .error e ∧ hitIds rpl.hits ≠ [])) →
      ∃ log, searchBestResultHandler multi stM stT stP stU stPl rpt =
        (.err 500 genericMsg, some log)) := by
  constructor
  · rintro e rfl
    rfl
  · rintro rm rt rp ru rpl rfl hfail
    cases hbody : bestResultBody rm rt rp ru rpl stM stT stP stU stPl rpt with
    | error e2 =>
      refine ⟨e2, ?_⟩
      simp only [searchBestResultHandler.eq_def, hbody]
    | ok v =>
      obtain ⟨r, fs⟩ := v
      exfalso
      rcases bestResultBody_inv hbody with
        ⟨hm, f1, ht, f2, hp, f3, hu, f4, hpl, f5, h1, h2, h3, h4, h5, hr, hf⟩
      rcases hfail with ⟨e, rfl, hne⟩ | ⟨e, rfl, hne⟩ | ⟨e, rfl, hne⟩ | ⟨e, rfl, hne⟩ |
        ⟨e, rfl, hne⟩
      · rw [hydrateFetch_error _ _ _ hne] at h1
        simp at h1
      · rw [hydrateFetch_error _ _ _ hne] at h2
        simp at h2
      · rw [hydrateFetch_error _ _ _ hne] at h3
        simp at h3
      · rw [hydrateFetch_error _ _ _ hne] at h4
        simp at h4
      · rw [hydrateFetch_error _ _ _ hne] at h5
        simp at h5

/-- C3 witness: a rejected engine batch yields the generic 500 and the logged
cause, with zero partial data. -/
theorem C3_all_or_nothing_witness :
    searchBestResultHandler (.error "typesense down")
      (.ok []) (.ok []) (.ok []) (.ok []) (.ok []) 5 =
      (.err 500 genericMsg, some "typesense down") :=
  (C3_all_or_nothing (.error "typesense down")
    (.ok []) (.ok []) (.ok []) (.ok []) (.ok []) 5).1 "typesense down" rfl

/-- C5 counterexample: with a single movie hit, the searchAll variant issues
two store fetches for the same id - the per-type hydration and the separate
best-result hydration - refuting the claim that in the multi-collection modes
no store fetch beyond the per-type hydrations is ever issued. -/
theorem C5_best_result_single_fetch_cex :
    searchAllFetchPlan ⟨some [cexMovieHit], 1⟩ ⟨some [], 0⟩ ⟨some [], 0⟩
      ⟨some [], 0⟩ ⟨some [], 0⟩ =
      [("media_movie", ["m1"]), ("media_movie", ["m1"])] ∧
    bestResultsFetchPlan ⟨some [cexMovieHit], 1⟩ ⟨some [], 0⟩ ⟨some [], 0⟩
      ⟨some [], 0⟩ ⟨some [], 0⟩ =
      [("media_movie", ["m1"])] :=
  ⟨rfl, rfl⟩

/-- C5 (amended): in the best-results variant the winning record is taken from
the per-type hydrated lists (whenever the response carries best data, that
record is a member of the hydrated list of one of the types) and the store
fetches issued are exactly the five per-type hydration fetches; the searchAll
variant instead appends one additional store fetch for the winning id, an id
already contained in the per-type fetch of the winning type. -/
theorem C5_best_result_single_fetch_amended (rm rt rp ru rpl : EngineResult)
    (stM stT stP stU stPl : Except String (List StoreRecord)) (rpt : ℕ) :
    (∀ r fs, bestResultBody rm rt rp ru rpl stM stT stP stU stPl rpt = .ok (r, fs) →
      fs = bestResultsFetchPlan rm rt rp ru rpl ∧
      ∀ t rec, r.bestResult = some (t, some rec) →
        rec ∈ r.movies.data ∨ rec ∈ r.tv_series.data ∨ rec ∈ r.persons.data ∨
          rec ∈ r.users.data ∨ rec ∈ r.playlists.data) ∧
    (∀ mt, headBestMeta rm rt rp ru rpl = some mt →
      searchAllFetchPlan rm rt rp ru rpl =
        bestResultsFetchPlan rm rt rp ru rpl ++ [(getTableNameForType mt.type, [mt.id])] ∧
      ∃ ids, (getTableNameForType mt.type, ids) ∈ bestResultsFetchPlan rm rt rp ru rpl ∧
        mt.id ∈ ids) := by
  constructor
  · intro r fs hbody
    rcases bestResultBody_inv hbody with
      ⟨hm, f1, ht, f2, hp, f3, hu, f4, hpl, f5, h1, h2, h3, h4, h5, hr, hf⟩
    subst hr
    constructor
    · rw [hf, hydrateFetch_fetches h1, hydrateFetch_fetches h2, hydrateFetch_fetches h3,
        hydrateFetch_fetches h4, hydrateFetch_fetches h5, bestResultsFetchPlan]
    · intro t rec hbr
      rcases Option.map_eq_some'.mp hbr with ⟨mm, hmm2, hpair⟩
      have hpk := congrArg Prod.snd hpair
      simp only at hpk
      rw [pickBestData.eq_def] at hpk
      split_ifs at hpk
      all_goals first
        | exact Or.inl (List.mem_of_find?_eq_some hpk)
        | exact Or.inr (Or.inl (List.mem_of_find?_eq_some hpk))
        | exact Or.inr (Or.inr (Or.inl (List.mem_of_find?_eq_some hpk)))
        | exact Or.inr (Or.inr (Or.inr (Or.inl (List.mem_of_find?_eq_some hpk))))
        | exact Or.inr (Or.inr (Or.inr (Or.inr (List.mem_of_find?_eq_some hpk))))
  · intro mt hmt
    refine ⟨by rw [searchAllFetchPlan, hmt], ?_⟩
    have hmt2 := hmt
    rw [headBestMeta, searchBestMeta_eq_foldl] at hmt2
    rcases foldl_keepMax_none_spec _ _ hmt2 with ⟨l1, l2, hdec, hlt, hle⟩
    have hmem : mt ∈ bestCandMetas (headHit rm) (headHit rt) (headHit rp) (headHit ru)
        (headHit rpl) := by
      rw [hdec]
      exact List.mem_append_right _ (List.mem_cons_self _ _)
    rw [bestCandMetas] at hmem
    rcases mem_candMetas hmem with ⟨c, hc, hh, hc2, hmeta⟩
    rw [potentialBest] at hc
    subst hmeta
    simp only [List.mem_cons, List.mem_singleton, List.not_mem_nil] at hc
    rcases hc with rfl | rfl | rfl | rfl | rfl | hfalse
    · have hin : hh ∈ (rm.hits.getD []) := mem_of_headHit hc2
      have hid : hh.document.id ∈ hitIds rm.hits := List.mem_map_of_mem _ hin
      have hne : hitIds rm.hits ≠ [] := List.ne_nil_of_mem hid
      refine ⟨hitIds rm.hits, ?_, hid⟩
      have hmem1 : (("media_movie" : String), hitIds rm.hits) ∈
          fetchOf "media_movie" (hitIds rm.hits) := by
        rw [fetchOf, if_neg (by simpa using hne)]
        exact List.mem_singleton_self _
      simp [bestResultsFetchPlan, List.mem_append, hmem1, metaOf, getTableNameForType]
    · have hin : hh ∈ (rt.hits.getD []) := mem_of_headHit hc2
      have hid : hh.document.id ∈ hitIds rt.hits := List.mem_map_of_mem _ hin
      have hne : hitIds rt.hits ≠ [] := List.ne_nil_of_mem hid
      refine ⟨hitIds rt.hits, ?_, hid⟩
      have hmem1 : (("media_tv_series" : String), hitIds rt.hits) ∈
          fetchOf "media_tv_series" (hitIds rt.hits) := by
        rw [fetchOf, if_neg (by simpa using hne)]
        exact List.mem_singleton_self _
      simp [bestResultsFetchPlan, List.mem_append, hmem1, metaOf, getTableNameForType]
    · have hin : hh ∈ (rp.hits.getD []) := mem_of_headHit hc2
      have hid : hh.document.id ∈ hitIds rp.hits := List.mem_map_of_mem _ hin
      have hne : hitIds rp.hits ≠ [] := List.ne_nil_of_mem hid
      refine ⟨hitIds rp.hits, ?_, hid⟩
      have hmem1 : (("media_person" : String), hitIds rp.hits) ∈
          fetchOf "media_person" (hitIds rp.hits) := by
        rw [fetchOf, if_neg (by simpa using hne)]
        exact List.mem_singleton_self _
      simp [bestResultsFetchPlan, List.mem_append, hmem1, metaOf, getTableNameForType]
    · have hin : hh ∈ (ru.hits.getD []) := mem_of_headHit hc2
      have hid : hh.document.id ∈ hitIds ru.hits := List.mem_map_of_mem _ hin
      have hne : hitIds ru.hits ≠ [] := List.ne_nil_of_mem hid
      refine ⟨hitIds ru.hits, ?_, hid⟩
      have hmem1 : (("user" : String), hitIds ru.hits) ∈
          fetchOf "user" (hitIds ru.hits) := by
        rw [fetchOf, if_neg (by simpa using hne)]
        exact List.mem_singleton_self _
      simp [bestResultsFetchPlan, List.mem_append, hmem1, metaOf, getTableNameForType]
    · have hin : hh ∈ (rpl.hits.getD []) := mem_of_headHit hc2
      have hid : hh.document.id ∈ hitIds rpl.hits := List.mem_map_of_mem _ hin
      have hne : hitIds rpl.hits ≠ [] := List.ne_nil_of_mem hid
      refine ⟨hitIds rpl.hits, ?_, hid⟩
      have hmem1 : (("playlists" : String), hitIds rpl.hits) ∈
          fetchOf "playlists" (hitIds rpl.hits) := by
        rw [fetchOf, if_neg (by simpa using hne)]
        exact List.mem_singleton_self _
      simp [bestResultsFetchPlan, List.mem_append, hmem1, metaOf, getTableNameForType]
    · exact absurd hfalse (by simp)

/-- C5 witness: a successful body with one movie hit and empty stores issues
exactly the single per-type fetch, and its best data is vacuously drawn from
the hydrated lists. -/
theorem C5_best_result_single_fetch_amended_witness :
    ([("media_movie", ["m1"])] : List (String × List String)) =
      bestResultsFetchPlan ⟨some [cexMovieHit], 1⟩ ⟨some [], 0⟩ ⟨some [], 0⟩
        ⟨some [], 0⟩ ⟨some [], 0⟩ ∧
    ∀ t rec,
      (⟨some ("movie", none), ⟨[], ⟨1, 1, 1, 5⟩⟩, ⟨[], ⟨0, 0, 1, 5⟩⟩, ⟨[], ⟨0, 0, 1, 5⟩⟩,
        ⟨[], ⟨0, 0, 1, 5⟩⟩, ⟨[], ⟨0, 0, 1, 5⟩⟩⟩ : BestResponse).bestResult =
        some (t, some rec) →
      rec ∈ (⟨some ("movie", none), ⟨[], ⟨1, 1, 1, 5⟩⟩, ⟨[], ⟨0, 0, 1, 5⟩⟩,
          ⟨[], ⟨0, 0, 1, 5⟩⟩, ⟨[], ⟨0, 0, 1, 5⟩⟩, ⟨[], ⟨0, 0, 1, 5⟩⟩⟩ :
          BestResponse).movies.data ∨
        rec ∈ (⟨some ("movie", none), ⟨[], ⟨1, 1, 1, 5⟩⟩, ⟨[], ⟨0, 0, 1, 5⟩⟩,
          ⟨[], ⟨0, 0, 1, 5⟩⟩, ⟨[], ⟨0, 0, 1, 5⟩⟩, ⟨[], ⟨0, 0, 1, 5⟩⟩⟩ :
          BestResponse).tv_series.data ∨
        rec ∈ (⟨some ("movie", none), ⟨[], ⟨1, 1, 1, 5⟩⟩, ⟨[], ⟨0, 0, 1, 5⟩⟩,
          ⟨[], ⟨0, 0, 1, 5⟩⟩, ⟨[], ⟨0, 0, 1, 5⟩⟩, ⟨[], ⟨0, 0, 1, 5⟩⟩⟩ :
          BestResponse).persons.data ∨
        rec ∈ (⟨some ("movie", none), ⟨[], ⟨1, 1, 1, 5⟩⟩, ⟨[], ⟨0, 0, 1, 5⟩⟩,
          ⟨[], ⟨0, 0, 1, 5⟩⟩, ⟨[], ⟨0, 0, 1, 5⟩⟩, ⟨[], ⟨0, 0, 1, 5⟩⟩⟩ :
          BestResponse).users.data ∨
        rec ∈ (⟨some ("movie", none), ⟨[], ⟨1, 1, 1, 5⟩⟩, ⟨[], ⟨0, 0, 1, 5⟩⟩,
          ⟨[], ⟨0, 0, 1, 5⟩⟩, ⟨[], ⟨0, 0, 1, 5⟩⟩, ⟨[], ⟨0, 0, 1, 5⟩⟩⟩ :
          BestResponse).playlists.data :=
  (C5_best_result_single_fetch_amended ⟨some [cexMovieHit], 1⟩ ⟨some [], 0⟩ ⟨some [], 0⟩
    ⟨some [], 0⟩ ⟨some [], 0⟩ (.ok []) (.ok []) (.ok []) (.ok []) (.ok []) 5).1
    ⟨some ("movie", none), ⟨[], ⟨1, 1, 1, 5⟩⟩, ⟨[], ⟨0, 0, 1, 5⟩⟩, ⟨[], ⟨0, 0, 1, 5⟩⟩,
      ⟨[], ⟨0, 0, 1, 5⟩⟩, ⟨[], ⟨0, 0, 1, 5⟩⟩⟩
    [("media_movie", ["m1"])] rfl

/-- C1 counterexample: a candidate document with a present popularity field of
value 0 and a present followers_count of 1000. The implemented falsy-fallback
chain uses 1000 as the popularity, so the user candidate wins; the selector
literally specified by the claim (first present field, hence popularity 0)
picks the movie candidate instead. The claim as stated therefore predicts a
different winner than the code on this input. -/
theorem C1_best_selection_cex :
    searchBestMeta (some cexMovieHit) none none (some cexUserHit) none =
      some ⟨"user", "u1", 1⟩ ∧
    specBestMeta (some cexMovieHit) none none (some cexUserHit) none =
      some ⟨"movie", "m1", 1⟩ := by
  constructor
  · norm_num [searchBestMeta, potentialBest, allHits, maxOr1, textScore, popMetric,
      jsOrNum, hybridScore, stepBest, keepMax, metaOf, cexMovieHit, cexUserHit, max_def,
      List.filterMap_cons, List.map_cons, List.foldr_cons, List.foldl_cons]
  · norm_num [specBestMeta, potentialBest, allHits, maxOr1, specPopMetric,
      keepMax, cexMovieHit, cexUserHit, max_def, List.filterMap_cons, List.map_cons, List.foldr_cons, List.foldl_cons]

/-- C1 (amended): the selector returns none exactly when no type produced a
hit; otherwise it returns the first candidate, in the declaration order
movie, tv_series, person, user, playlist, whose hybrid score
0.9 * text/maxText + 0.1 * pop/maxPop is maximal (strictly greater than every
earlier candidate, at least as great as every later one), with maxText and
maxPop the per-request maxima floored at 1, text the relevance score (0 when
absent) and pop the first present nonzero field of the popularity-fallback
chain (0 when all are absent or zero). On the scenario of the claim - hit A
with relevance 8 and popularity 100 against hit B with relevance 4 and
popularity 500 - the maxima are 8 and 500, the hybrids 0.92 and 0.55, and A
wins. -/
theorem C1_best_selection_amended (m tv p u pl : Option BestHit) :
    (searchBestMeta m tv p u pl = none ↔
      m = none ∧ tv = none ∧ p = none ∧ u = none ∧ pl = none) ∧
    (∀ mt, searchBestMeta m tv p u pl = some mt →
      ∃ l1 l2, bestCandMetas m tv p u pl = l1 ++ mt :: l2 ∧
        (∀ c ∈ l1, c.score < mt.score) ∧
        (∀ c ∈ bestCandMetas m tv p u pl, c.score ≤ mt.score)) ∧
    searchBestMeta (some exHitA) (some exHitB) none none none =
      some ⟨"movie", "A", 23/25⟩ ∧
    maxOr1 ((allHits (potentialBest (some exHitA) (some exHitB) none none none)).map
      textScore) = 8 ∧
    maxOr1 ((allHits (potentialBest (some exHitA) (some exHitB) none none none)).map
      (fun h => popMetric h.document)) = 500 ∧
    hybridScore 8 500 exHitA = 23/25 ∧
    hybridScore 8 500 exHitB = 11/20 := by
  refine ⟨?_, ?_, ?_, ?_, ?_, ?_, ?_⟩
  · rw [searchBestMeta_eq_foldl, foldl_keepMax_none_eq_none]
    simp only [bestCandMetas, candMetas_potentialBest]
    cases m <;> cases tv <;> cases p <;> cases u <;> cases pl <;> simp
  · intro mt h
    rw [searchBestMeta_eq_foldl] at h
    exact foldl_keepMax_none_spec _ _ h
  · norm_num [searchBestMeta, potentialBest, allHits, maxOr1, textScore, popMetric,
      jsOrNum, hybridScore, stepBest, keepMax, metaOf, exHitA, exHitB, max_def,
      List.filterMap_cons, List.map_cons, List.foldr_cons, List.foldl_cons]
  · norm_num [potentialBest, allHits, maxOr1, textScore, jsOrNum, exHitA, exHitB, max_def,
      List.filterMap_cons, List.map_cons, List.foldr_cons, List.foldl_cons]
  · norm_num [potentialBest, allHits, maxOr1, popMetric, jsOrNum, exHitA, exHitB, max_def,
      List.filterMap_cons, List.map_cons, List.foldr_cons, List.foldl_cons]
  · norm_num [hybridScore, textScore, popMetric, jsOrNum, exHitA]
  · norm_num [hybridScore, textScore, popMetric, jsOrNum, exHitB]

/-- C1 witness: the decomposition of the candidate list around the winner of
the ranking scenario of section 8. -/
theorem C1_best_selection_amended_witness :
    ∃ l1 l2, bestCandMetas (some exHitA) (some exHitB) none none none =
      l1 ++ (⟨"movie", "A", 23/25⟩ : BestMeta) :: l2 ∧
      (∀ c ∈ l1, c.score < (⟨"movie", "A", 23/25⟩ : BestMeta).score) ∧
      (∀ c ∈ bestCandMetas (some exHitA) (some exHitB) none none none,
        c.score ≤ (⟨"movie", "A", 23/25⟩ : BestMeta).score) :=
  (C1_best_selection_amended (some exHitA) (some exHitB) none none none).2.1
    ⟨"movie", "A", 23/25⟩
    (C1_best_selection_amended (some exHitA) (some exHitB) none none none).2.2.1

end RecomendSearch
